import Mathlib

/-!
Shallow embedding of the outbound request gateway of the chat-nphies
repository: the chat-route validator (`workers/src/ollama.ts`, mirrored in
`workers/src/claude.ts`), the regulated-exchange route
(`workers/src/nphies.ts` with `workers/src/utils/crypto.ts`), the retry
executor (`frontend/src/hooks/useRetry.ts` with `useNphies.ts`), and the
sliding-window rate limiter (`frontend/src/utils/validation.ts`).

JavaScript numbers are modelled as rationals (`ℚ`); JavaScript's NaN and the
details of its floating-point arithmetic are outside the embedding.
JavaScript runtime values that a function inspects with `typeof` checks are
modelled by the `JsVal` sum type.
-/

/-- A JavaScript runtime value as far as the gateway's `typeof` checks
distinguish them: a string, a number, a boolean, `null`, `undefined`, or any
other (object-like) value. -/
inductive JsVal : Type where
  | str (s : String)
  | num (x : ℚ)
  | boolean (b : Bool)
  | jsNull
  | undef
  | objLike
deriving DecidableEq, Repr

/-- JavaScript truthiness (`Boolean(v)`), restricted to the values `JsVal`
distinguishes. An `objLike` value is always truthy. -/
def jsTruthy : JsVal → Bool
  | .str s => s ≠ ""
  | .num x => x ≠ 0
  | .boolean b => b
  | .jsNull => false
  | .undef => false
  | .objLike => true

/-- Truthiness of an optional string field (`metadata?.field ? ... : ...`):
absent and the empty string are falsy. -/
def optTruthy : Option String → Bool
  | none => false
  | some s => s ≠ ""

/-- A candidate chat message as decoded from the untrusted request body:
both fields are arbitrary runtime values until sanitized. -/
structure RawMsg where
  role : JsVal
  content : JsVal
deriving DecidableEq, Repr

/-- A chat message after sanitization (`ChatMessage` in the source): in
`ollama.ts` the role type is `"system" | "user" | "assistant" | string`,
i.e. any string. -/
structure ChatMessage where
  role : String
  content : String
deriving DecidableEq, Repr

/-- Chat metadata (`ChatMetadata`): the four fields the guardrail composer
reads. `context` is carried in its `JSON.stringify(context, null, 2)`
serialized form, which is all `buildSystemPrompt` uses it for. -/
structure ChatMetadata where
  locale : Option String := none
  intent : Option String := none
  schemaHint : Option String := none
  context : Option String := none
deriving DecidableEq, Repr

/-- Raw generation options before clamping: each field is an arbitrary
runtime value (`undefined` when absent). -/
structure RawOptions where
  temperature : JsVal := .undef
  top_p : JsVal := .undef
  max_tokens : JsVal := .undef
deriving DecidableEq, Repr

/-- Sanitized generation options (`ChatOptions` in the source, all fields
optional). -/
structure ChatOptions where
  temperature : Option ℚ := none
  top_p : Option ℚ := none
  max_tokens : Option ℚ := none
deriving DecidableEq, Repr

/-- JavaScript's `String.prototype.trim()`: strip leading and trailing
whitespace (the JS whitespace set is approximated by `Char.isWhitespace`).
Defined structurally on the character list so that it evaluates inside the
kernel. -/
def jsTrim (s : String) : String :=
  ⟨((s.data.dropWhile Char.isWhitespace).reverse.dropWhile Char.isWhitespace).reverse⟩

/-- `clamp(value, min, max) = Math.min(Math.max(value, min), max)`. -/
def clamp (value lo hi : ℚ) : ℚ := min (max value lo) hi

/-- `WorkerError`: a message together with the HTTP status it is surfaced
with. -/
structure WorkerError where
  message : String
  status : ℕ
deriving DecidableEq, Repr

namespace Ollama

/-- `MAX_MESSAGES` in `ollama.ts`. -/
def MAX_MESSAGES : ℕ := 16

/-- `DEFAULT_MODEL` in `ollama.ts`. -/
def DEFAULT_MODEL : String := "llama3.1-8b-instruct"

/-- `DEFAULT_OPTIONS` in `ollama.ts`: temperature 0.2 and top_p 0.9;
`max_tokens` has no default entry. -/
def DEFAULT_OPTIONS : ChatOptions :=
  { temperature := some (1/5), top_p := some (9/10), max_tokens := none }

/-- `sanitizeMessages` (`ollama.ts`): keep candidates whose `role` and
`content` are both strings, coerce them into `ChatMessage` (content is
passed through verbatim), and keep the most recent `MAX_MESSAGES` entries
(`slice(-MAX_MESSAGES)`). The source's `filter` followed by `map` is fused
into one `filterMap`. -/
def sanitizeMessages (messages : List RawMsg) : List ChatMessage :=
  let kept := messages.filterMap fun m =>
    match m.role, m.content with
    | .str r, .str c => some ⟨r, c⟩
    | _, _ => none
  kept.drop (kept.length - MAX_MESSAGES)

/-- `sanitizeOptions` (`ollama.ts`): start from the defaults and overwrite
each field that is present with a numeric value by its clamped value.
`none` on the input models `undefined` or a non-object value
(`!options || typeof options !== "object"`). -/
def sanitizeOptions : Option RawOptions → ChatOptions
  | none => DEFAULT_OPTIONS
  | some o =>
    let s := DEFAULT_OPTIONS
    let s := match o.temperature with
      | .num x => { s with temperature := some (clamp x 0 (3/2)) }
      | _ => s
    let s := match o.top_p with
      | .num x => { s with top_p := some (clamp x 0 1) }
      | _ => s
    let s := match o.max_tokens with
      | .num x => { s with max_tokens := some (max 64 (min x 4096)) }
      | _ => s
    s

/-- `describeLocale` (`ollama.ts`). -/
def describeLocale (locale : String) : String :=
  if (locale.toLower).startsWith "ar" then
    "Respond in Modern Standard Arabic unless referencing code identifiers."
  else if (locale.toLower).startsWith "en" then
    "Respond in English and use short, actionable sentences."
  else
    "Match the user\x27s locale (" ++ locale ++ ")."

/-- `formatContext` (`ollama.ts`), applied to the serialized context. -/
def formatContext (ctx : String) : String :=
  "Reference context (do not restate identifiers unnecessarily):\n" ++ ctx

/-- The fixed base sentence of the guardrail prompt (`base` in
`buildSystemPrompt`). -/
def basePrompt : String :=
  "You are NPHIES Edge Copilot. Guide the user through Saudi NPHIES Taameen workflows. " ++
  "Ask clarifying questions if any identifiers are missing before generating payloads."

/-- The fixed structured-output sentence of the guardrail prompt
(`structured` in `buildSystemPrompt`). -/
def structuredPrompt : String :=
  "Whenever possible, include a compact JSON snippet with the fields intent, patientId, coverageId, claimId, " ++
  "recommendedEndpoint, and nextSteps. If information is unavailable, leave the field as null."

/-- `buildSystemPrompt` (`ollama.ts`): join the base, structured-output,
locale, intent, schema, and context parts with blank lines, dropping the
absent ones (`filter(Boolean)` also drops empty strings). -/
def buildSystemPrompt (metadata : Option ChatMetadata) : String :=
  let locale := match metadata.bind ChatMetadata.locale with
    | some l => if l ≠ "" then describeLocale l else "Respond in the user\x27s language."
    | none => "Respond in the user\x27s language."
  let intent := match metadata.bind ChatMetadata.intent with
    | some i => if i ≠ "" then some ("Primary intent: " ++ i ++ ".") else none
    | none => none
  let schema := match metadata.bind ChatMetadata.schemaHint with
    | some s => if s ≠ "" then some ("Follow this schema strictly: " ++ s ++ ".") else none
    | none => none
  let context := match metadata.bind ChatMetadata.context with
    | some c => if c ≠ "" then some (formatContext c) else none
    | none => none
  let parts : List (Option String) :=
    [some basePrompt, some structuredPrompt, some locale, intent, schema, context]
  String.intercalate "\n\n" ((parts.filterMap id).filter (fun s => s ≠ ""))

/-- `enforceLimit` (`ollama.ts`): if over `MAX_MESSAGES`, keep index 0 (the
guardrail) and the last `MAX_MESSAGES - 1` of the rest
(`[guardrail, ...messages.slice(messages.length - (MAX_MESSAGES - 1))]`). -/
def enforceLimit (messages : List ChatMessage) : List ChatMessage :=
  if messages.length ≤ MAX_MESSAGES then messages
  else
    match messages with
    | [] => []
    | g :: _ => g :: messages.drop (messages.length - (MAX_MESSAGES - 1))

/-- `applyGuardrails` (`ollama.ts`): if the guardrail text is empty, leave
the messages alone; if the first message is a system message, prepend the
guardrail text to its content; otherwise insert a fresh leading system
message; then re-truncate with `enforceLimit`. -/
def applyGuardrails (messages : List ChatMessage) (metadata : Option ChatMetadata) :
    List ChatMessage :=
  let systemGuardrail := buildSystemPrompt metadata
  if systemGuardrail = "" then messages
  else
    match messages with
    | first :: rest =>
      if first.role = "system" then
        enforceLimit (⟨"system", jsTrim (systemGuardrail ++ "\n\n" ++ first.content)⟩ :: rest)
      else
        enforceLimit (⟨"system", systemGuardrail⟩ :: messages)
    | [] => enforceLimit [⟨"system", systemGuardrail⟩]

end Ollama

namespace Claude

/-- `MAX_MESSAGES` in `claude.ts`. -/
def MAX_MESSAGES : ℕ := 20

/-- `sanitizeMessages` (`claude.ts`): same shape filter as the ollama
route, but the content is trimmed (`content: msg.content.trim()`), and the
role is cast (`msg.role as ChatRole`), not checked against the closed
set. -/
def sanitizeMessages (messages : List RawMsg) : List ChatMessage :=
  let kept := messages.filterMap fun m =>
    match m.role, m.content with
    | .str r, .str c => some ⟨r, jsTrim c⟩
    | _, _ => none
  kept.drop (kept.length - MAX_MESSAGES)

end Claude

/-! ## JSON values and the response envelope -/

/-- A JSON-like runtime value for request/response bodies. The `undef`
constructor models a JavaScript `undefined` stored in an object field (it is
omitted by `JSON.stringify`). Objects are association lists in insertion
order. -/
inductive Json : Type where
  | null
  | bool (b : Bool)
  | num (x : ℚ)
  | str (s : String)
  | undef
  | arr (elems : List Json)
  | obj (fields : List (String × Json))

mutual

/-- `JSON.stringify` on the embedded values. String escaping and
JavaScript's number formatting are abstracted (no claim depends on the
serialized text, only on whether and what is signed and sent). `undefined`
fields are omitted from objects and serialized as `null` inside arrays. -/
def jsonStringify : Json → String
  | .null => "null"
  | .bool b => if b then "true" else "false"
  | .num x => toString x
  | .str s => "\"" ++ s ++ "\""
  | .undef => "null"
  | .arr es => "[" ++ stringifyElems es ++ "]"
  | .obj fs => "\x7b" ++ stringifyFields fs ++ "\x7d"

/-- Comma-separated serialization of array elements. -/
def stringifyElems : List Json → String
  | [] => ""
  | [e] => jsonStringify e
  | e :: es => jsonStringify e ++ "," ++ stringifyElems es

/-- Comma-separated serialization of object fields, skipping `undefined`
values as `JSON.stringify` does. -/
def stringifyFields : List (String × Json) → String
  | [] => ""
  | (_, .undef) :: fs => stringifyFields fs
  | (k, v) :: fs =>
    let rest := stringifyFields fs
    let entry := "\"" ++ k ++ "\":" ++ jsonStringify v
    if rest = "" then entry else entry ++ "," ++ rest

end

/-- Field lookup on a JSON object (`data?.field`); `none` for non-objects
and missing keys. -/
def lookupField (j : Json) (k : String) : Option Json :=
  match j with
  | .obj fs => fs.lookup k
  | _ => none

/-- The object spread `\x7b...data, k: v\x7d`: if `k` is already present its
value is overwritten in place, otherwise the field is appended. -/
def objSet (fields : List (String × Json)) (k : String) (v : Json) :
    List (String × Json) :=
  if (fields.lookup k).isSome then
    fields.map (fun f => if f.1 = k then (k, v) else f)
  else fields ++ [(k, v)]

/-- An upstream HTTP response as the gateway observes it: the status, the
body text, and the result of `JSON.parse` on that text (`Except.error`
carries the parse-error message). -/
structure UpstreamResponse where
  status : ℕ
  text : String
  parsed : Except String Json

/-- `response.ok`: status in the 2xx range. -/
def upstreamOk (r : UpstreamResponse) : Bool :=
  200 ≤ r.status && r.status ≤ 299

/-- The response the worker returns to the client: HTTP status plus JSON
body (headers are fixed and not modelled). -/
structure WorkerResponse where
  status : ℕ
  body : Json

/-! ## The chat route (`workers/src/ollama.ts`) -/

namespace Ollama

/-- The environment bindings the chat route reads. -/
structure OEnv where
  OLLAMA_API_KEY : Option String := none
  OLLAMA_API_BASE : Option String := none
  OLLAMA_MODEL : Option String := none

/-- The decoded request body (`ChatRequest`): `messages := none` models a
non-array `messages` field, `metadata := none` a value that is not a plain
object, `options := none` a missing or non-object options value. -/
structure RawChatRequest where
  model : JsVal := .undef
  messages : Option (List RawMsg) := none
  metadata : Option ChatMetadata := none
  stream : JsVal := .undef
  options : Option RawOptions := none

/-- `ValidatedRequest` in the source. -/
structure ValidatedRequest where
  model : String
  messages : List ChatMessage
  metadata : Option ChatMetadata
  stream : Bool
  options : ChatOptions
  traceId : String
deriving DecidableEq, Repr

/-- `validateRequest` (`ollama.ts`). The request body is `none` when it is
not an object (`!body || typeof body !== "object"`). The freshly minted
trace identifier (`crypto.randomUUID()`) is passed in as `traceId`. -/
def validateRequest (body : Option RawChatRequest) (env : OEnv) (traceId : String) :
    Except WorkerError ValidatedRequest :=
  match body with
  | none => .error ⟨"Invalid request body", 400⟩
  | some payload =>
    let incomingMessages := payload.messages.getD []
    let sanitizedMessages := sanitizeMessages incomingMessages
    if sanitizedMessages.length = 0 then
      .error ⟨"At least one chat message is required", 422⟩
    else
      let metadata := payload.metadata
      let options := sanitizeOptions payload.options
      let model := match payload.model with
        | .str m => if 0 < (jsTrim m).length then jsTrim m else env.OLLAMA_MODEL.getD DEFAULT_MODEL
        | _ => env.OLLAMA_MODEL.getD DEFAULT_MODEL
      .ok { model := model, messages := applyGuardrails sanitizedMessages metadata,
            metadata := metadata, stream := jsTruthy payload.stream,
            options := options, traceId := traceId }

/-- `parseResponseBody` (`ollama.ts`): empty text gives `null`; a parse
failure wraps the raw text and the parse-error message. -/
def parseResponseBody (r : UpstreamResponse) : Json :=
  if r.text = "" then .null
  else
    match r.parsed with
    | .ok j => j
    | .error e =>
      .obj [("message", .str "Failed to parse Ollama response"),
            ("raw", .str r.text), ("error", .str e)]

/-- The upstream error-message extraction in `handleOllama`:
`data?.error?.message ?? data?.message ?? fallback` (only string-valued
messages are modelled, matching the declared shape). -/
def extractErrorMessage (data : Json) (fallback : String) : String :=
  match (lookupField data "error").bind (fun e => lookupField e "message") with
  | some (.str s) => s
  | _ =>
    match lookupField data "message" with
    | some (.str s) => s
    | _ => fallback

/-- `handleOllama` (`ollama.ts`), with the downstream `fetch` result passed
in as `upstream`; when validation fails the upstream response is unused,
matching the fact that no downstream call is made. The `catch` block turns
a `WorkerError` into a `\x7bmessage\x7d` body with its status. -/
def handleOllama (env : OEnv) (body : Option RawChatRequest) (traceId : String)
    (upstream : UpstreamResponse) : WorkerResponse :=
  if ¬ optTruthy env.OLLAMA_API_KEY then
    ⟨500, .obj [("message", .str "Missing Ollama API key")]⟩
  else
    match validateRequest body env traceId with
    | .error e => ⟨e.status, .obj [("message", .str e.message)]⟩
    | .ok request =>
      let data := parseResponseBody upstream
      if ¬ upstreamOk upstream then
        ⟨upstream.status,
         .obj [("message", .str (extractErrorMessage data "Upstream Ollama request failed"))]⟩
      else
        match data with
        | .obj fields => ⟨upstream.status, .obj (objSet fields "traceId" (.str request.traceId))⟩
        | d => ⟨upstream.status, .obj [("data", d), ("traceId", .str request.traceId)]⟩

end Ollama

/-! ## The regulated-exchange route (`workers/src/nphies.ts`,
`workers/src/utils/crypto.ts`) -/

namespace Nphies

/-- The environment bindings the exchange route reads. -/
structure NEnv where
  NPHIES_CLIENT_KEY : String
  NPHIES_API_BASE : String

/-- The WebCrypto operations `signPayload` calls, as an external
capability. `importKey` covers the whole key derivation on the trimmed PEM
text (`pemToArrayBuffer` plus `crypto.subtle.importKey`): `none` models a
rejection on malformed PEM, invalid base64, or unsupported key material.
`sign` and `digest` return the base64 strings the source computes. -/
structure CryptoBackend where
  importKey : String → Option String
  sign : String → String → String
  digest : String → String

/-- The signing failure: the exception a rejected key derivation raises on
the first signing attempt. -/
inductive SignError : Type where
  | invalidKeyMaterial
deriving DecidableEq, Repr

/-- The result of `signPayload`. -/
structure SignedPayload where
  payload : String
  signature : String
  digest : String
deriving DecidableEq, Repr

/-- `signPayload` (`crypto.ts`): derive the key from the PEM credential and
produce signature and digest of the serialized payload. The process-wide
key cache only affects calls after a successful first derivation and is not
modelled; a failed derivation fails the signing attempt. -/
def signPayload (backend : CryptoBackend) (env : NEnv) (payload : String) :
    Except SignError SignedPayload :=
  match backend.importKey (jsTrim env.NPHIES_CLIENT_KEY) with
  | none => .error .invalidKeyMaterial
  | some key => .ok ⟨payload, backend.sign key payload, backend.digest payload⟩

/-- `SERVICE_PATHS` (`nphies.ts`). -/
def SERVICE_PATHS : List (String × String) :=
  [("eligibility", "eligibility"), ("claim", "claim"),
   ("pre-authorization", "pre-authorization"), ("payment", "payment-notice"),
   ("patient-record", "patient-record")]

/-- JavaScript template-literal coercion of a destructured payload field
(`\x60Patient/$\x7bpatientId\x7d\x60`): a missing field renders as
`"undefined"`; string, number, null render as in JavaScript; the rendering
of composite values is an abstract placeholder (no claim inspects it). -/
def interp : Option Json → String
  | none => "undefined"
  | some .undef => "undefined"
  | some .null => "null"
  | some (.str s) => s
  | some (.num x) => toString x
  | some (.bool b) => if b then "true" else "false"
  | some (.arr _) => "[array]"
  | some (.obj _) => "[object Object]"

/-- `buildFhirPayload` (`nphies.ts`): a pure transform from the service
name and the request fields to the outbound document; unknown services pass
the fields through unchanged. Fields copied raw in the source
(`id: claimId`, `code: sctCode`, `value: amount`) carry the looked-up value
(`undefined` when absent); the reference strings are template literals. -/
def buildFhirPayload (service : String) (payload : List (String × Json)) :
    List (String × Json) :=
  if service = "eligibility" then
    [("resourceType", .str "EligibilityRequest"),
     ("status", .str "active"),
     ("patient", .obj [("reference", .str ("Patient/" ++ interp (payload.lookup "patientId")))]),
     ("insurance", .arr [.obj [("reference", .str ("Coverage/" ++ interp (payload.lookup "coverageId")))]]),
     ("item", .arr [.obj [
        ("category", .obj [("coding", .arr [.obj [
           ("system", .str "http://terminology.hl7.org/CodeSystem/claimcategory"),
           ("code", .str "service")]])]),
        ("productOrService", .obj [("coding", .arr [.obj [
           ("system", .str "http://snomed.info/sct"),
           ("code", (payload.lookup "sctCode").getD .undef)]])])]])]
  else if service = "claim" then
    [("resourceType", .str "Claim"),
     ("id", (payload.lookup "claimId").getD .undef),
     ("status", .str "active"),
     ("type", .obj [("coding", .arr [.obj [
        ("system", .str "http://terminology.hl7.org/CodeSystem/claim-type"),
        ("code", .str "professional")]])]),
     ("patient", .obj [("reference", .str ("Patient/" ++ interp (payload.lookup "patientId")))]),
     ("diagnosis", .arr [.obj [
        ("sequence", .num 1),
        ("diagnosisCodeableConcept", .obj [("coding", .arr [.obj [
           ("system", .str "http://hl7.org/fhir/sid/icd-10"),
           ("code", (payload.lookup "diagnosis").getD .undef)]])])]]),
     ("total", .obj [("value", (payload.lookup "amount").getD .undef),
                     ("currency", .str "SAR")])]
  else payload

/-- The signed request `handleNphies` sends downstream: the arguments of
`new URL(path, base)`, the two signature headers, and the serialized
body. -/
structure OutboundRequest where
  base : String
  path : String
  signature : String
  digest : String
  body : String
deriving DecidableEq, Repr

/-- What the exchange route produces when signing succeeds: the downstream
request it sent and the response envelope returned to the client. -/
structure NphiesOutcome where
  sent : OutboundRequest
  response : WorkerResponse

/-- The inline body handling of `handleNphies`: `null` for an empty text,
the parsed JSON when `JSON.parse` succeeds, and a
`\x7braw, parseError\x7d` wrapper when it fails. -/
def parseNphiesBody (upstream : UpstreamResponse) : Json :=
  if upstream.text = "" then Json.null
  else
    match upstream.parsed with
    | .ok j => j
    | .error e => .obj [("raw", .str upstream.text), ("parseError", .str e)]

/-- `handleNphies` (`nphies.ts`): build, serialize, sign, send, and pass
the upstream body through with the upstream status. The function has no
`try`/`catch`: a signing failure propagates as `Except.error` — the model
of the exception escaping the worker fetch handler — so no downstream
request is sent and no structured response body is constructed by this
code. -/
def handleNphies (backend : CryptoBackend) (env : NEnv) (service : String)
    (payload : List (String × Json)) (upstream : UpstreamResponse) :
    Except SignError NphiesOutcome := do
  let path := (SERVICE_PATHS.lookup service).getD service
  let fhirPayload := buildFhirPayload service payload
  let serialized := jsonStringify (.obj fhirPayload)
  let signature ← signPayload backend env serialized
  pure ⟨⟨env.NPHIES_API_BASE, path, signature.signature, signature.digest, serialized⟩,
        ⟨upstream.status, parseNphiesBody upstream⟩⟩

end Nphies

/-! ## The retry executor (`frontend/src/hooks/useRetry.ts`) and error
classification (`frontend/src/hooks/useNphies.ts`) -/

namespace Retry

/-- `RetryOptions` with the source defaults
(`maxAttempts = 3, delay = 1000, backoff = true`). -/
structure RetryOptions where
  maxAttempts : ℕ := 3
  delay : ℚ := 1000
  backoff : Bool := true

/-- The `type` tag of `NetworkError` in `useNphies.ts`. -/
inductive ErrType : Type where
  | network
  | timeout
  | server
  | client
  | unknown
deriving DecidableEq, Repr

/-- `NetworkError` (`useNphies.ts`): the classified error, carrying its
retryability as a field. -/
structure NetworkError where
  type : ErrType
  message : String
  status : Option ℕ := none
  retryable : Bool
deriving DecidableEq, Repr

/-- `categorizeError` (`useNphies.ts`): a `TypeError` is a retryable
network failure; with a response, 5xx and 429 are retryable server errors,
other 4xx are terminal client errors; everything else is a terminal
unknown error. `errMsg` is `error.message` when `error instanceof Error`. -/
def categorizeError (isTypeError : Bool) (errMsg : Option String)
    (status : Option ℕ) : NetworkError :=
  if isTypeError then
    ⟨.network, "Network connection failed. Please check your internet connection.",
     none, true⟩
  else
    match status with
    | some st =>
      if 500 ≤ st then
        ⟨.server, "Server error occurred. Please try again.", some st, true⟩
      else if st = 429 then
        ⟨.server, "Too many requests. Please wait and try again.", some st, true⟩
      else if 400 ≤ st then
        ⟨.client, errMsg.getD "Invalid request", some st, false⟩
      else
        ⟨.unknown, errMsg.getD "An unexpected error occurred", none, false⟩
    | none => ⟨.unknown, errMsg.getD "An unexpected error occurred", none, false⟩

/-- The terminal outcome of one `execute()` invocation. `exhausted` models
the final `throw new Error(...)` after the loop, reachable only when
`maxAttempts = 0` so the loop body never runs. -/
inductive RetryOutcome (T E : Type) : Type where
  | success (value : T)
  | failure (err : E)
  | exhausted
deriving DecidableEq, Repr

/-- One `execute()` run observed from outside: the outcome, the number of
attempts actually made, and the list of waits (in ms) between consecutive
attempts, in order. -/
structure RetryTrace (T E : Type) : Type where
  outcome : RetryOutcome T E
  attempts : ℕ
  waits : List ℚ
deriving DecidableEq, Repr

/-- The retry loop of `useRetry.execute` (`useRetry.ts`): `results n` is
what the downstream call does on the `n`-th attempt (1-based). On error the
loop retries unconditionally until `attempt = maxAttempts` — it never
inspects the error's classification — waiting `delay * 2 ^ (attempt - 1)`
when backoff is enabled, else `delay`. The `fuel` argument is the number of
loop iterations still available (`maxAttempts + 1 - attempt`), making the
recursion structural; `fuel = 0` is the loop falling through to the final
`throw new Error(...)`. -/
def executeLoop (results : ℕ → Except E T) (maxAttempts : ℕ) (delay : ℚ)
    (backoff : Bool) : ℕ → ℕ → List ℚ → RetryTrace T E
  | attempt, 0, waits => ⟨.exhausted, attempt - 1, waits⟩
  | attempt, fuel + 1, waits =>
    match results attempt with
    | .ok v => ⟨.success v, attempt, waits⟩
    | .error e =>
      if attempt = maxAttempts then ⟨.failure e, attempt, waits⟩
      else
        let waitTime := if backoff then delay * 2 ^ (attempt - 1) else delay
        executeLoop results maxAttempts delay backoff (attempt + 1) fuel
          (waits ++ [waitTime])

/-- `useRetry.execute`: run the loop from attempt 1 with no waits recorded
and `maxAttempts` iterations available. -/
def execute (results : ℕ → Except E T) (opts : RetryOptions) : RetryTrace T E :=
  executeLoop results opts.maxAttempts opts.delay opts.backoff 1 opts.maxAttempts []

end Retry

/-! ## The sliding-window rate limiter (`frontend/src/utils/validation.ts`) -/

namespace RateLimit

/-- The `RateLimiter` configuration with the source defaults
(`maxRequests = 10`, `windowMs = 60000`). -/
structure RateLimiter where
  maxRequests : ℕ := 10
  windowMs : ℤ := 60000

/-- The `requests` map: per-identifier admission timestamps;
`Map.get(id) || []` gives `[]` for an absent identifier. -/
def RLState : Type := String → List ℤ

/-- The empty map (no identifier has been seen). -/
def RLState.empty : RLState := fun _ => []

/-- `RateLimiter.isAllowed`: evict entries outside the trailing window,
reject without recording when the surviving count has reached the ceiling,
otherwise record `now` and admit. -/
def isAllowed (rl : RateLimiter) (st : RLState) (identifier : String) (now : ℤ) :
    Bool × RLState :=
  let requests := st identifier
  let validRequests := requests.filter (fun time => now - time < rl.windowMs)
  if rl.maxRequests ≤ validRequests.length then (false, st)
  else (true, fun id => if id = identifier then validRequests ++ [now] else st id)

/-- A sequence of `isAllowed` calls for one identifier at the given times,
returning the admissions in order and the final state. -/
def admitSeq (rl : RateLimiter) (st : RLState) (identifier : String) :
    List ℤ → List Bool × RLState
  | [] => ([], st)
  | t :: ts =>
    let step := isAllowed rl st identifier t
    let rest := admitSeq rl step.2 identifier ts
    (step.1 :: rest.1, rest.2)

end RateLimit

/-! ## Helper lemmas -/

/-- `String.intercalate.go acc sep as` always extends `acc` on the right. -/
theorem intercalate_go_prepend (sep : String) :
    ∀ (as : List String) (acc : String),
      ∃ t, String.intercalate.go acc sep as = acc ++ t := by
  intro as
  induction as with
  | nil =>
    intro acc
    refine ⟨"", ?_⟩
    show acc = acc ++ ""
    simp
  | cons a as ih =>
    intro acc
    obtain ⟨t, ht⟩ := ih (acc ++ sep ++ a)
    refine ⟨sep ++ a ++ t, ?_⟩
    rw [String.intercalate.go, ht]
    simp [String.append_assoc]

/-- Intercalating a nonempty list starts with its head. -/
theorem intercalate_cons_prepend (sep a : String) (as : List String) :
    ∃ t, String.intercalate sep (a :: as) = a ++ t := by
  obtain ⟨t, ht⟩ := intercalate_go_prepend sep as a
  exact ⟨t, by rw [String.intercalate, ht]⟩

/-- A string with a nonempty prefix is nonempty. -/
theorem append_ne_empty_left (a t : String) (h : a ≠ "") : a ++ t ≠ "" := by
  intro hc
  apply h
  have hd := congrArg String.data hc
  rw [String.data_append] at hd
  exact String.ext (List.append_eq_nil.mp hd).1

/-- The guardrail instruction is never empty: it always starts with the
fixed base sentence. -/
theorem buildSystemPrompt_ne_empty (md : Option ChatMetadata) :
    Ollama.buildSystemPrompt md ≠ "" := by
  unfold Ollama.buildSystemPrompt
  simp only [List.filterMap_cons, id_eq]
  rw [List.filter_cons_of_pos (by decide)]
  obtain ⟨t, ht⟩ := intercalate_cons_prepend "\n\n" Ollama.basePrompt _
  rw [ht]
  exact append_ne_empty_left _ _ (by decide)

/-- `enforceLimit` never changes index 0. -/
theorem enforceLimit_head (m : ChatMessage) (t : List ChatMessage) :
    (Ollama.enforceLimit (m :: t)).head? = some m := by
  unfold Ollama.enforceLimit
  split <;> rfl

/-- `enforceLimit` on a list one over the cap keeps the head and drops
exactly the first element after it. -/
theorem enforceLimit_succ_max (g : ChatMessage) (s : List ChatMessage)
    (h : s.length = Ollama.MAX_MESSAGES) :
    Ollama.enforceLimit (g :: s) = g :: s.drop 1 := by
  unfold Ollama.enforceLimit
  rw [if_neg (by simp [h, Ollama.MAX_MESSAGES])]
  show g :: (g :: s).drop ((g :: s).length - (Ollama.MAX_MESSAGES - 1)) = g :: s.drop 1
  have : (g :: s).length - (Ollama.MAX_MESSAGES - 1) = 2 := by
    simp [h, Ollama.MAX_MESSAGES]
  rw [this]
  rfl

/-- When the first message is not a system message, `applyGuardrails`
inserts a fresh leading guardrail message and re-truncates. -/
theorem applyGuardrails_not_system (m : ChatMessage) (t : List ChatMessage)
    (md : Option ChatMetadata) (hrole : m.role ≠ "system") :
    Ollama.applyGuardrails (m :: t) md =
      Ollama.enforceLimit (⟨"system", Ollama.buildSystemPrompt md⟩ :: m :: t) := by
  unfold Ollama.applyGuardrails
  rw [if_neg (buildSystemPrompt_ne_empty md)]
  simp [hrole]

/-- When the first message is a system message, `applyGuardrails` prepends
the guardrail text to its content and re-truncates. -/
theorem applyGuardrails_system (m : ChatMessage) (t : List ChatMessage)
    (md : Option ChatMetadata) (hrole : m.role = "system") :
    Ollama.applyGuardrails (m :: t) md =
      Ollama.enforceLimit
        (⟨"system", jsTrim (Ollama.buildSystemPrompt md ++ "\n\n" ++ m.content)⟩ :: t) := by
  unfold Ollama.applyGuardrails
  rw [if_neg (buildSystemPrompt_ne_empty md)]
  simp [hrole]

/-- After `objSet fields k v`, looking up `k` yields `v`. -/
theorem lookup_objSet (fs : List (String × Json)) (k : String) (v : Json) :
    (objSet fs k v).lookup k = some v := by
  unfold objSet
  split
  case isTrue h =>
    induction fs with
    | nil => simp at h
    | cons f t ih =>
      obtain ⟨fk, fv⟩ := f
      by_cases hf : fk = k
      · subst hf
        simp
      · have hbeq : (k == fk) = false := by
          simp [Ne.symm hf]
        simp only [List.map_cons, if_neg hf, List.lookup_cons, hbeq] at h ⊢
        exact ih h
  case isFalse h =>
    have hn : fs.lookup k = none := Option.not_isSome_iff_eq_none.mp h
    rw [List.lookup_append, hn]
    simp

/-! ## Claim theorems -/

/-- C1: for every inbound chat-route request whose sanitized message list
together with guardrail injection would exceed `MAX_MESSAGES` (the
sanitized list is already full and its first message is not a system
message, so injection adds a 17th), the validated message list is exactly
the guardrail system message followed by all but the first sanitized
message: its length is exactly `MAX_MESSAGES`, index 0 is the guardrail
system message, and truncation drops only the front of the non-guardrail
suffix. -/
theorem chat_guardrail_truncation (raw : List RawMsg) (md : Option ChatMetadata)
    (hlen : (Ollama.sanitizeMessages raw).length = Ollama.MAX_MESSAGES)
    (hhead : ((Ollama.sanitizeMessages raw).map ChatMessage.role).head? ≠ some "system") :
    Ollama.applyGuardrails (Ollama.sanitizeMessages raw) md =
      ⟨"system", Ollama.buildSystemPrompt md⟩ :: (Ollama.sanitizeMessages raw).drop 1 ∧
    (Ollama.applyGuardrails (Ollama.sanitizeMessages raw) md).length = Ollama.MAX_MESSAGES := by
  cases hsm : Ollama.sanitizeMessages raw with
  | nil => rw [hsm] at hlen; simp [Ollama.MAX_MESSAGES] at hlen
  | cons m t =>
    rw [hsm] at hlen hhead
    have hrole : m.role ≠ "system" := by simpa using hhead
    have heq : Ollama.applyGuardrails (m :: t) md =
        ⟨"system", Ollama.buildSystemPrompt md⟩ :: (m :: t).drop 1 := by
      rw [applyGuardrails_not_system m t md hrole, enforceLimit_succ_max _ _ hlen]
    refine ⟨heq, ?_⟩
    rw [heq]
    simp only [List.length_cons, List.drop_one, List.length_tail, List.length_cons]
    simp [Ollama.MAX_MESSAGES] at hlen ⊢
    omega

/-- A full sanitized conversation used to witness C1: sixteen valid user
messages. -/
def c1raw : List RawMsg := List.replicate 16 ⟨.str "user", .str "hi"⟩

/-- Witness for C1 at a concrete full conversation. -/
theorem chat_guardrail_truncation_witness :
    Ollama.applyGuardrails (Ollama.sanitizeMessages c1raw) none =
      ⟨"system", Ollama.buildSystemPrompt none⟩ :: (Ollama.sanitizeMessages c1raw).drop 1 ∧
    (Ollama.applyGuardrails (Ollama.sanitizeMessages c1raw) none).length =
      Ollama.MAX_MESSAGES :=
  chat_guardrail_truncation c1raw none (by decide) (by decide)

/-- The guardrail metadata of the C8 scenario: intent
`"eligibility_check"`, no locale, schema hint, or context. -/
def c8metadata : Option ChatMetadata :=
  some { intent := some "eligibility_check" }

set_option maxRecDepth 100000 in
/-- C8: when the caller-supplied first message is a system message with
content `"be terse"` and the guardrail context carries intent
`"eligibility_check"`, the validated first message's content is exactly the
fixed preamble (base sentence, structured-output sentence, and the default
locale line), followed by the intent line, followed by `"be terse"` —
whatever the rest of the conversation is. -/
theorem chat_system_prompt_composition (rest : List ChatMessage) :
    (Ollama.applyGuardrails (⟨"system", "be terse"⟩ :: rest) c8metadata).head? =
      some ⟨"system",
        Ollama.basePrompt ++ "\n\n" ++ Ollama.structuredPrompt ++ "\n\n" ++
        "Respond in the user\x27s language." ++ "\n\n" ++
        "Primary intent: eligibility_check." ++ "\n\n" ++ "be terse"⟩ := by
  rw [applyGuardrails_system _ _ _ rfl, enforceLimit_head]
  have hc : jsTrim (Ollama.buildSystemPrompt c8metadata ++ "\n\n" ++ "be terse") =
      Ollama.basePrompt ++ "\n\n" ++ Ollama.structuredPrompt ++ "\n\n" ++
      "Respond in the user\x27s language." ++ "\n\n" ++
      "Primary intent: eligibility_check." ++ "\n\n" ++ "be terse" := by decide
  rw [hc]

/-- The C2 counterexample body: one message whose role is the unrecognized
string `"wizard"` and whose content is empty. -/
def c2body : Option Ollama.RawChatRequest :=
  some { messages := some [⟨.str "wizard", .str ""⟩] }

set_option maxRecDepth 100000 in
/-- C2 counterexample: the chat-route validator accepts a message with the
unrecognized role `"wizard"` and empty content — the validated request's
last message is exactly `⟨"wizard", ""⟩`, so unrecognized roles are not
rejected and empty content is not rejected. -/
theorem chat_role_counterexample :
    (Ollama.validateRequest c2body {} "trace-c2").map
        (fun vr => vr.messages.getLast?) = .ok (some ⟨"wizard", ""⟩) ∧
    "wizard" ∉ (["system", "user", "assistant"] : List String) := by
  constructor
  · rfl
  · decide

/-- C2 (amended): every message in a validated request's sanitized input
has a role and a content that are string-typed copies of the candidate's
fields — candidates missing either field or carrying non-string values are
dropped — but the role is any string (it is not checked against the closed
role set) and the content may be empty. -/
theorem chat_sanitize_field_types (raw : List RawMsg) (m : ChatMessage)
    (hm : m ∈ Ollama.sanitizeMessages raw) :
    ∃ c ∈ raw, c.role = .str m.role ∧ c.content = .str m.content := by
  unfold Ollama.sanitizeMessages at hm
  have hm' := List.mem_of_mem_drop hm
  obtain ⟨c, hc, hfc⟩ := List.mem_filterMap.mp hm'
  refine ⟨c, hc, ?_⟩
  obtain ⟨crole, ccontent⟩ := c
  cases crole <;> cases ccontent <;> simp_all
  subst hfc
  exact ⟨rfl, rfl⟩

/-- Witness for the amended C2 at a concrete sanitized message. -/
theorem chat_sanitize_field_types_witness :
    ∃ c ∈ [(⟨.str "user", .str "hi"⟩ : RawMsg)],
      c.role = .str (ChatMessage.role ⟨"user", "hi"⟩) ∧
      c.content = .str (ChatMessage.content ⟨"user", "hi"⟩) :=
  chat_sanitize_field_types [⟨.str "user", .str "hi"⟩] ⟨"user", "hi"⟩ (by decide)

/-- C9 counterexample: the claude-route sanitizer does not pass content
through verbatim — a surviving message whose caller-supplied content is
`" x "` is stored with content `"x"`, so the stored content is not
character-for-character equal to the caller's. -/
theorem claude_trim_counterexample :
    Claude.sanitizeMessages [⟨.str "user", .str " x "⟩] = [⟨"user", "x"⟩] ∧
    (" x " : String) ≠ "x" := by
  constructor
  · decide
  · decide

/-- C9 (amended): the ollama-route sanitizer passes surviving content
through verbatim, but the claude-route sanitizer stores the trimmed
content (`msg.content.trim()`); each surviving message's content is
otherwise a string-typed copy of the candidate's. -/
theorem chat_sanitize_content_passthrough (raw : List RawMsg) (m m' : ChatMessage)
    (h1 : m ∈ Ollama.sanitizeMessages raw) (h2 : m' ∈ Claude.sanitizeMessages raw) :
    (∃ c ∈ raw, c.content = .str m.content) ∧
    (∃ c ∈ raw, ∃ s, c.content = .str s ∧ m'.content = jsTrim s) := by
  constructor
  · obtain ⟨c, hc, h3, h4⟩ := chat_sanitize_field_types raw m h1
    exact ⟨c, hc, h4⟩
  · unfold Claude.sanitizeMessages at h2
    have h2' := List.mem_of_mem_drop h2
    obtain ⟨c, hc, hfc⟩ := List.mem_filterMap.mp h2'
    refine ⟨c, hc, ?_⟩
    obtain ⟨crole, ccontent⟩ := c
    rcases crole with r | x | b | _ | _ | _ <;>
      rcases ccontent with s | x2 | b2 | _ | _ | _ <;> simp_all
    rw [← hfc]

/-- Witness for the amended C9 at a concrete candidate with padded
content. -/
theorem chat_sanitize_content_passthrough_witness :
    (∃ c ∈ [(⟨.str "user", .str " hi "⟩ : RawMsg)],
        c.content = .str (ChatMessage.content ⟨"user", " hi "⟩)) ∧
    (∃ c ∈ [(⟨.str "user", .str " hi "⟩ : RawMsg)],
        ∃ s, c.content = .str s ∧ ChatMessage.content ⟨"user", "hi"⟩ = jsTrim s) :=
  chat_sanitize_content_passthrough [⟨.str "user", .str " hi "⟩]
    ⟨"user", " hi "⟩ ⟨"user", "hi"⟩ (by decide) (by decide)

/-- A crypto backend whose key derivation always rejects, modelling missing
or malformed PEM key material. -/
def badBackend : Nphies.CryptoBackend :=
  ⟨fun _ => none, fun _ _ => "", fun _ => ""⟩

/-- C3 counterexample: with malformed key material the exchange route does
not produce any response — `handleNphies` propagates the signing failure as
an uncaught exception (`Except.error`), so the route's own code never
returns a 5xx response with a structured `message` body (that body shape
exists only in the ollama-style handlers and the Pages Functions wrapper). -/
theorem nphies_signing_failure_counterexample :
    Nphies.handleNphies badBackend ⟨"not-a-pem", "https://nphies.example"⟩ "eligibility"
      [("patientId", .str "P1")] ⟨200, "", .ok .null⟩ =
      .error .invalidKeyMaterial := by
  rfl

/-- C3 (amended): if the signing credential is missing or malformed, the
first signing attempt on the regulated-exchange route fails and no payload
— signed or unsigned — is sent downstream; but the failure escapes
`handleNphies` as an uncaught exception (modelled by `Except.error`) rather
than being converted by this route into a 5xx response with a structured
`message` body. -/
theorem nphies_signing_failure_no_downstream (backend : Nphies.CryptoBackend)
    (env : Nphies.NEnv) (service : String) (payload : List (String × Json))
    (upstream : UpstreamResponse)
    (hbad : backend.importKey (jsTrim env.NPHIES_CLIENT_KEY) = none) :
    Nphies.handleNphies backend env service payload upstream = .error .invalidKeyMaterial ∧
    ∀ o : Nphies.NphiesOutcome,
      Nphies.handleNphies backend env service payload upstream ≠ .ok o := by
  have h : Nphies.handleNphies backend env service payload upstream =
      .error .invalidKeyMaterial := by
    unfold Nphies.handleNphies Nphies.signPayload
    rw [hbad]
    rfl
  exact ⟨h, fun o ho => by rw [h] at ho; exact Except.noConfusion ho⟩

/-- Witness for the amended C3 at a concrete malformed credential. -/
theorem nphies_signing_failure_no_downstream_witness :
    Nphies.handleNphies badBackend ⟨"", "https://nphies.example"⟩ "claim"
        [("claimId", .str "CLM-1")] ⟨200, "", .ok .null⟩ =
      .error .invalidKeyMaterial ∧
    ∀ o : Nphies.NphiesOutcome,
      Nphies.handleNphies badBackend ⟨"", "https://nphies.example"⟩ "claim"
          [("claimId", .str "CLM-1")] ⟨200, "", .ok .null⟩ ≠ .ok o :=
  nphies_signing_failure_no_downstream badBackend ⟨"", "https://nphies.example"⟩ "claim"
    [("claimId", .str "CLM-1")] ⟨200, "", .ok .null⟩ rfl

/-- The classified error of the C4 failing input: a 422 response, which
`categorizeError` marks as a terminal (`retryable: false`) client error. -/
def c4error : Retry.NetworkError :=
  Retry.categorizeError false (some "Invalid request body") (some 422)

/-- C4: the retry executor ignores the terminal classification. At the
failing input — a call that fails with a validation-class error
(`retryable = false`) on every attempt, with the default
`maxAttempts = 3, delay = 1000, backoff = true` — the executor makes all 3
attempts instead of exactly one, waiting 1000 ms and then 2000 ms between
them, and surfaces the last error. The claim's remaining parts hold: the
attempt count never exceeds the maximum and the waits strictly increase. -/
theorem retry_retries_terminal_error :
    c4error.retryable = false ∧
    (Retry.execute (fun _ => .error c4error : ℕ → Except Retry.NetworkError Unit)
        {}).attempts = 3 ∧
    (Retry.execute (fun _ => .error c4error : ℕ → Except Retry.NetworkError Unit)
        {}).outcome = .failure c4error ∧
    (Retry.execute (fun _ => .error c4error : ℕ → Except Retry.NetworkError Unit)
        {}).waits = [1000, 2000] := by
  refine ⟨rfl, ?_, ?_, ?_⟩ <;>
    (simp [Retry.execute, Retry.executeLoop]; try norm_num)

/-- The successful chat-route envelope: upstream status, upstream body with
the request's trace identifier spread in. -/
theorem handleOllama_success (env : Ollama.OEnv) (body : Option Ollama.RawChatRequest)
    (tid : String) (upstream : UpstreamResponse) (vr : Ollama.ValidatedRequest)
    (hkey : optTruthy env.OLLAMA_API_KEY = true)
    (hvr : Ollama.validateRequest body env tid = .ok vr)
    (hok : upstreamOk upstream = true) :
    Ollama.handleOllama env body tid upstream =
      ⟨upstream.status,
       match Ollama.parseResponseBody upstream with
       | .obj fields => Json.obj (objSet fields "traceId" (.str vr.traceId))
       | d => Json.obj [("data", d), ("traceId", .str vr.traceId)]⟩ := by
  unfold Ollama.handleOllama
  rw [if_neg (by simp [hkey]), hvr]
  dsimp only
  rw [if_neg (by simp [hok])]
  cases Ollama.parseResponseBody upstream <;> rfl

/-- A request the validator accepts carries exactly the trace identifier
minted for it. -/
theorem validateRequest_traceId (body : Option Ollama.RawChatRequest)
    (env : Ollama.OEnv) (tid : String) (vr : Ollama.ValidatedRequest)
    (h : Ollama.validateRequest body env tid = .ok vr) : vr.traceId = tid := by
  cases body with
  | none => simp [Ollama.validateRequest] at h
  | some payload =>
    simp only [Ollama.validateRequest] at h
    split at h
    · exact absurd h (by simp)
    · injection h with h2
      rw [← h2]

/-- C5 (amended): on a successful upstream response, the chat-route
envelope mirrors the upstream status and carries the trace identifier
minted for the request; the regulated-exchange route also mirrors the
upstream status, but its body is the upstream body passed through
unchanged — no trace identifier is minted or added on that route. -/
theorem success_envelope_traceid (env : Ollama.OEnv) (body : Option Ollama.RawChatRequest)
    (tid : String) (upstream : UpstreamResponse)
    (hkey : optTruthy env.OLLAMA_API_KEY = true)
    (hvr : (Ollama.validateRequest body env tid).isOk = true)
    (hok : upstreamOk upstream = true) :
    ((Ollama.handleOllama env body tid upstream).status = upstream.status ∧
     lookupField (Ollama.handleOllama env body tid upstream).body "traceId" =
       some (.str tid)) ∧
    ∀ (backend : Nphies.CryptoBackend) (nenv : Nphies.NEnv) (service : String)
      (payload : List (String × Json)) (o : Nphies.NphiesOutcome),
      Nphies.handleNphies backend nenv service payload upstream = .ok o →
      o.response.status = upstream.status ∧
      o.response.body = Nphies.parseNphiesBody upstream := by
  constructor
  · obtain ⟨vr, hv⟩ : ∃ vr, Ollama.validateRequest body env tid = .ok vr := by
      cases hvv : Ollama.validateRequest body env tid with
      | error e => rw [hvv] at hvr; simp [Except.isOk, Except.toBool] at hvr
      | ok vr => exact ⟨vr, rfl⟩
    have htid : vr.traceId = tid := validateRequest_traceId body env tid vr hv
    have hres := handleOllama_success env body tid upstream vr hkey hv hok
    rw [hres]
    cases hd : Ollama.parseResponseBody upstream with
    | obj fields =>
      exact ⟨rfl, by simp [lookupField, lookup_objSet, htid]⟩
    | null => exact ⟨rfl, by simp [lookupField, htid, List.lookup_cons]⟩
    | bool b => exact ⟨rfl, by simp [lookupField, htid, List.lookup_cons]⟩
    | num x => exact ⟨rfl, by simp [lookupField, htid, List.lookup_cons]⟩
    | str s => exact ⟨rfl, by simp [lookupField, htid, List.lookup_cons]⟩
    | undef => exact ⟨rfl, by simp [lookupField, htid, List.lookup_cons]⟩
    | arr es => exact ⟨rfl, by simp [lookupField, htid, List.lookup_cons]⟩
  · intro backend nenv service payload o ho
    unfold Nphies.handleNphies Nphies.signPayload at ho
    cases hk : backend.importKey (jsTrim nenv.NPHIES_CLIENT_KEY) with
    | none => rw [hk] at ho; exact absurd ho (by simp)
    | some key =>
      rw [hk] at ho
      simp only [Except.bind, bind, pure] at ho
      injection ho with h2
      rw [← h2]
      exact ⟨rfl, rfl⟩

/-- A crypto backend whose key derivation succeeds, for exercising the
exchange route's success path. -/
def okBackend : Nphies.CryptoBackend :=
  ⟨fun _ => some "key-handle", fun _ _ => "c2ln", fun _ => "ZGln"⟩

/-- A successful upstream response with a parsed JSON object body. -/
def c5upstream : UpstreamResponse :=
  ⟨200, "\x7b\"outcome\":\"complete\"\x7d", .ok (.obj [("outcome", .str "complete")])⟩

/-- C5 counterexample: on a successful exchange-route call the returned
envelope body is the upstream body passed through and contains no
`traceId` field — the regulated-exchange route never mints one, so the
claim that every successful envelope on both routes includes the minted
trace identifier is false. -/
theorem nphies_envelope_no_traceid_counterexample :
    (Nphies.handleNphies okBackend ⟨"PEM", "https://nphies.example"⟩ "eligibility"
        [("patientId", .str "P1"), ("coverageId", .str "C1"), ("sctCode", .str "123")]
        c5upstream).map (fun o => lookupField o.response.body "traceId") = .ok none ∧
    upstreamOk c5upstream = true := by
  exact ⟨rfl, rfl⟩

/-- The environment, body, and upstream response of the C5 witness. -/
def c5env : Ollama.OEnv := { OLLAMA_API_KEY := some "sk-test" }

/-- The chat body of the C5 witness: one valid user message. -/
def c5body : Option Ollama.RawChatRequest :=
  some { messages := some [⟨.str "user", .str "hello"⟩] }

/-- Witness for the amended C5 on the chat route at concrete inputs. -/
theorem success_envelope_traceid_witness :
    (Ollama.handleOllama c5env c5body "tid-1" c5upstream).status = c5upstream.status ∧
    lookupField (Ollama.handleOllama c5env c5body "tid-1" c5upstream).body "traceId" =
      some (.str "tid-1") :=
  ⟨(success_envelope_traceid c5env c5body "tid-1" c5upstream rfl rfl rfl).1.1,
   (success_envelope_traceid c5env c5body "tid-1" c5upstream rfl rfl rfl).1.2⟩

/-- The `temperature` field as the clamp sees it: `undefined` when the
whole options value is missing or not an object. -/
def rawTemp : Option RawOptions → JsVal
  | none => .undef
  | some o => o.temperature

/-- The `top_p` field as the clamp sees it. -/
def rawTopP : Option RawOptions → JsVal
  | none => .undef
  | some o => o.top_p

/-- The `max_tokens` field as the clamp sees it. -/
def rawMaxTokens : Option RawOptions → JsVal
  | none => .undef
  | some o => o.max_tokens

/-- `typeof v === "number"` on an embedded runtime value. -/
def isNum : JsVal → Bool
  | .num _ => true
  | _ => false

/-- The clamp's `temperature` output depends only on the raw
`temperature` field. -/
theorem sanitizeOptions_temperature (o : Option RawOptions) :
    (Ollama.sanitizeOptions o).temperature =
      match rawTemp o with
      | .num x => some (clamp x 0 (3/2))
      | _ => Ollama.DEFAULT_OPTIONS.temperature := by
  cases o with
  | none => rfl
  | some o =>
    obtain ⟨t, p, mt⟩ := o
    cases t <;> cases p <;> cases mt <;> rfl

/-- The clamp's `top_p` output depends only on the raw `top_p` field. -/
theorem sanitizeOptions_top_p (o : Option RawOptions) :
    (Ollama.sanitizeOptions o).top_p =
      match rawTopP o with
      | .num x => some (clamp x 0 1)
      | _ => Ollama.DEFAULT_OPTIONS.top_p := by
  cases o with
  | none => rfl
  | some o =>
    obtain ⟨t, p, mt⟩ := o
    cases t <;> cases p <;> cases mt <;> rfl

/-- The clamp's `max_tokens` output depends only on the raw `max_tokens`
field. -/
theorem sanitizeOptions_max_tokens (o : Option RawOptions) :
    (Ollama.sanitizeOptions o).max_tokens =
      match rawMaxTokens o with
      | .num x => some (max 64 (min x 4096))
      | _ => Ollama.DEFAULT_OPTIONS.max_tokens := by
  cases o with
  | none => rfl
  | some o =>
    obtain ⟨t, p, mt⟩ := o
    cases t <;> cases p <;> cases mt <;> rfl

/-- C6: the options clamp is a total function (by construction it returns
a value for every input); every field that is present with a numeric value
is clamped into the provider-specific closed interval — temperature into
`[0, 1.5]`, top_p into `[0, 1]`, max_tokens into `[64, 4096]` — and every
field that is absent or of the wrong type comes out as the named default
(temperature 0.2, top_p 0.9, max_tokens unset). -/
theorem options_clamp_bounds_and_defaults (o : Option RawOptions) :
    (∀ x : ℚ, rawTemp o = .num x →
        (Ollama.sanitizeOptions o).temperature = some (clamp x 0 (3/2)) ∧
        0 ≤ clamp x 0 (3/2) ∧ clamp x 0 (3/2) ≤ 3/2) ∧
    (isNum (rawTemp o) = false →
        (Ollama.sanitizeOptions o).temperature = Ollama.DEFAULT_OPTIONS.temperature) ∧
    (∀ x : ℚ, rawTopP o = .num x →
        (Ollama.sanitizeOptions o).top_p = some (clamp x 0 1) ∧
        0 ≤ clamp x 0 1 ∧ clamp x 0 1 ≤ 1) ∧
    (isNum (rawTopP o) = false →
        (Ollama.sanitizeOptions o).top_p = Ollama.DEFAULT_OPTIONS.top_p) ∧
    (∀ x : ℚ, rawMaxTokens o = .num x →
        (Ollama.sanitizeOptions o).max_tokens = some (max 64 (min x 4096)) ∧
        64 ≤ max 64 (min x 4096) ∧ max 64 (min x 4096) ≤ 4096) ∧
    (isNum (rawMaxTokens o) = false →
        (Ollama.sanitizeOptions o).max_tokens = Ollama.DEFAULT_OPTIONS.max_tokens) := by
  refine ⟨?_, ?_, ?_, ?_, ?_, ?_⟩
  · intro x hx
    rw [sanitizeOptions_temperature, hx]
    exact ⟨rfl, le_min (le_max_right x 0) (by norm_num), min_le_right _ _⟩
  · intro h
    rw [sanitizeOptions_temperature]
    cases hr : rawTemp o <;> simp_all [isNum]
  · intro x hx
    rw [sanitizeOptions_top_p, hx]
    exact ⟨rfl, le_min (le_max_right x 0) (by norm_num), min_le_right _ _⟩
  · intro h
    rw [sanitizeOptions_top_p]
    cases hr : rawTopP o <;> simp_all [isNum]
  · intro x hx
    rw [sanitizeOptions_max_tokens, hx]
    refine ⟨rfl, le_max_left _ _, max_le (by norm_num) (min_le_right _ _)⟩
  · intro h
    rw [sanitizeOptions_max_tokens]
    cases hr : rawMaxTokens o <;> simp_all [isNum]

/-- The C6 witness options: temperature far above its bound, top_p of the
wrong type, max_tokens far below its floor. -/
def c6opts : Option RawOptions :=
  some { temperature := .num 99, top_p := .str "oops", max_tokens := .num (-5) }

/-- Witness for C6 at concrete out-of-range and wrong-typed fields. -/
theorem options_clamp_bounds_and_defaults_witness :
    ((Ollama.sanitizeOptions c6opts).temperature = some (clamp 99 0 (3/2)) ∧
     0 ≤ clamp 99 0 (3/2) ∧ clamp 99 0 (3/2) ≤ 3/2) ∧
    (Ollama.sanitizeOptions c6opts).top_p = Ollama.DEFAULT_OPTIONS.top_p ∧
    ((Ollama.sanitizeOptions c6opts).max_tokens = some (max 64 (min (-5) 4096)) ∧
     64 ≤ max 64 (min (-5 : ℚ) 4096) ∧ max 64 (min (-5 : ℚ) 4096) ≤ 4096) :=
  ⟨(options_clamp_bounds_and_defaults c6opts).1 99 rfl,
   (options_clamp_bounds_and_defaults c6opts).2.2.2.1 rfl,
   (options_clamp_bounds_and_defaults c6opts).2.2.2.2.1 (-5) rfl⟩

/-- Admitting a batch of calls for one identifier: as long as the recorded
timestamps plus the incoming calls stay within the ceiling and every pair
of involved instants is within one window, every call is admitted and the
identifier's record grows by exactly the admitted instants, in order. -/
theorem admitSeq_all_admitted (rl : RateLimit.RateLimiter) (identifier : String) :
    ∀ (ts acc : List ℤ) (st : RateLimit.RLState),
      st identifier = acc →
      acc.length + ts.length ≤ rl.maxRequests →
      (∀ a ∈ acc ++ ts, ∀ b ∈ acc ++ ts, b - a < rl.windowMs) →
      (RateLimit.admitSeq rl st identifier ts).1 = List.replicate ts.length true ∧
      (RateLimit.admitSeq rl st identifier ts).2 identifier = acc ++ ts := by
  intro ts
  induction ts with
  | nil =>
    intro acc st hacc _ _
    exact ⟨rfl, by simpa using hacc⟩
  | cons t ts ih =>
    intro acc st hacc hlen hwin
    have hfilter : acc.filter (fun time => decide (t - time < rl.windowMs)) = acc := by
      apply List.filter_eq_self.mpr
      intro a ha
      simp only [decide_eq_true_eq]
      exact hwin a (by simp [ha]) t (by simp)
    have hcnt : ¬ (rl.maxRequests ≤ acc.length) := by
      simp only [List.length_cons] at hlen
      omega
    have hstep : RateLimit.isAllowed rl st identifier t =
        (true, fun id => if id = identifier then acc ++ [t] else st id) := by
      unfold RateLimit.isAllowed
      rw [hacc]
      simp only [hfilter]
      rw [if_neg hcnt]
    have hst' : (fun id => if id = identifier then acc ++ [t] else st id) identifier =
        acc ++ [t] := by simp
    have hlen' : (acc ++ [t]).length + ts.length ≤ rl.maxRequests := by
      simp only [List.length_append, List.length_cons, List.length_nil] at hlen ⊢
      omega
    have hwin' : ∀ a ∈ (acc ++ [t]) ++ ts, ∀ b ∈ (acc ++ [t]) ++ ts,
        b - a < rl.windowMs := by
      intro a ha b hb
      apply hwin <;> simp at ha hb ⊢ <;> tauto
    have ihres := ih (acc ++ [t])
      (fun id => if id = identifier then acc ++ [t] else st id) hst' hlen' hwin'
    unfold RateLimit.admitSeq
    rw [hstep]
    refine ⟨?_, ?_⟩
    · simp only [List.length_cons, List.replicate_succ]
      exact congrArg (List.cons true) ihres.1
    · rw [ihres.2]
      simp

/-- C7: for a fresh identifier with a positive ceiling, admitting exactly
`maxRequests` calls whose instants all lie within one window succeeds every
time (each call records its timestamp); the next admission attempt still
inside the window is rejected; and once the window has elapsed past every
recorded instant, admission succeeds again. -/
theorem rate_limiter_ceiling_and_window (rl : RateLimit.RateLimiter)
    (identifier : String) (ts : List ℤ) (u v : ℤ)
    (hpos : 0 < rl.maxRequests)
    (hlen : ts.length = rl.maxRequests)
    (hwin : ∀ a ∈ ts ++ [u], ∀ b ∈ ts ++ [u], b - a < rl.windowMs)
    (hexp : ∀ a ∈ ts, rl.windowMs ≤ v - a) :
    (RateLimit.admitSeq rl RateLimit.RLState.empty identifier ts).1 =
      List.replicate rl.maxRequests true ∧
    (RateLimit.isAllowed rl
        (RateLimit.admitSeq rl RateLimit.RLState.empty identifier ts).2
        identifier u).1 = false ∧
    (RateLimit.isAllowed rl
        (RateLimit.isAllowed rl
            (RateLimit.admitSeq rl RateLimit.RLState.empty identifier ts).2
            identifier u).2
        identifier v).1 = true := by
  have hwints : ∀ a ∈ ([] : List ℤ) ++ ts, ∀ b ∈ ([] : List ℤ) ++ ts,
      b - a < rl.windowMs := by
    intro a ha b hb
    simp only [List.nil_append] at ha hb
    exact hwin a (by simp [ha]) b (by simp [hb])
  have hbase := admitSeq_all_admitted rl identifier ts [] RateLimit.RLState.empty rfl
    (by simp [hlen]) hwints
  obtain ⟨hres, hstate⟩ := hbase
  simp only [List.nil_append] at hstate
  have hfilter_u : ts.filter (fun time => decide (u - time < rl.windowMs)) = ts := by
    apply List.filter_eq_self.mpr
    intro a ha
    simp only [decide_eq_true_eq]
    exact hwin a (by simp [ha]) u (by simp)
  have hrej : RateLimit.isAllowed rl
      (RateLimit.admitSeq rl RateLimit.RLState.empty identifier ts).2 identifier u =
      (false, (RateLimit.admitSeq rl RateLimit.RLState.empty identifier ts).2) := by
    unfold RateLimit.isAllowed
    rw [hstate]
    simp only [hfilter_u]
    rw [if_pos (by rw [hlen])]
  have hfilter_v : ts.filter (fun time => decide (v - time < rl.windowMs)) = [] := by
    apply List.filter_eq_nil_iff.mpr
    intro a ha
    simp only [decide_eq_true_eq, not_lt]
    exact hexp a ha
  refine ⟨by rw [hres, hlen], by rw [hrej], ?_⟩
  rw [hrej]
  unfold RateLimit.isAllowed
  rw [hstate]
  simp only [hfilter_v]
  rw [if_neg (by simp [Nat.pos_iff_ne_zero] at hpos ⊢; omega)]

/-- The witness admission instants for C7: ten calls in one minute. -/
def c7times : List ℤ := [0, 1, 2, 3, 4, 5, 6, 7, 8, 9]

/-- Witness for C7 with the source's default ceiling 10 and window
60000 ms: ten admissions succeed, the eleventh at instant 10 is rejected,
and an admission at instant 60010 (a full window past every recorded
instant) succeeds. -/
theorem rate_limiter_ceiling_and_window_witness :
    (RateLimit.admitSeq {} RateLimit.RLState.empty "user-1" c7times).1 =
      List.replicate (RateLimit.RateLimiter.maxRequests {}) true ∧
    (RateLimit.isAllowed {}
        (RateLimit.admitSeq {} RateLimit.RLState.empty "user-1" c7times).2
        "user-1" 10).1 = false ∧
    (RateLimit.isAllowed {}
        (RateLimit.isAllowed {}
            (RateLimit.admitSeq {} RateLimit.RLState.empty "user-1" c7times).2
            "user-1" 10).2
        "user-1" 60010).1 = true :=
  rate_limiter_ceiling_and_window {} "user-1" c7times 10 60010
    (by decide) (by decide) (by decide) (by decide)

/-- C10: `buildFhirPayload` is a pure transform; for every service name
outside the known mapping the result is the input fields unchanged, and
for each known service the FHIR structural fields are always populated
regardless of which business fields are present — eligibility documents
carry the resource type, status, and the typed patient and coverage
references; claim documents carry the resource type, status, and the typed
patient reference. -/
theorem buildFhirPayload_structural (service : String) (payload : List (String × Json)) :
    (service ≠ "eligibility" → service ≠ "claim" →
        Nphies.buildFhirPayload service payload = payload) ∧
    ((Nphies.buildFhirPayload "eligibility" payload).lookup "resourceType" =
        some (.str "EligibilityRequest") ∧
     (Nphies.buildFhirPayload "eligibility" payload).lookup "status" =
        some (.str "active") ∧
     (Nphies.buildFhirPayload "eligibility" payload).lookup "patient" =
        some (.obj [("reference",
          .str ("Patient/" ++ Nphies.interp (payload.lookup "patientId")))]) ∧
     (Nphies.buildFhirPayload "eligibility" payload).lookup "insurance" =
        some (.arr [.obj [("reference",
          .str ("Coverage/" ++ Nphies.interp (payload.lookup "coverageId")))]])) ∧
    ((Nphies.buildFhirPayload "claim" payload).lookup "resourceType" =
        some (.str "Claim") ∧
     (Nphies.buildFhirPayload "claim" payload).lookup "status" =
        some (.str "active") ∧
     (Nphies.buildFhirPayload "claim" payload).lookup "patient" =
        some (.obj [("reference",
          .str ("Patient/" ++ Nphies.interp (payload.lookup "patientId")))])) := by
  refine ⟨?_, ⟨?_, ?_, ?_, ?_⟩, ?_, ?_, ?_⟩
  · intro h1 h2
    simp [Nphies.buildFhirPayload, h1, h2]
  all_goals rfl

/-- Witness for C10: an unmapped service passes its fields through, and
the eligibility builder populates the resource type even with every
business field absent. -/
theorem buildFhirPayload_structural_witness :
    Nphies.buildFhirPayload "payment" [("note", .str "n")] = [("note", .str "n")] ∧
    (Nphies.buildFhirPayload "eligibility" [("note", .str "n")]).lookup "resourceType" =
      some (.str "EligibilityRequest") ∧
    (Nphies.buildFhirPayload "eligibility" [("note", .str "n")]).lookup "patient" =
      some (.obj [("reference",
        .str ("Patient/" ++ Nphies.interp (List.lookup "patientId" [("note", .str "n")])))]) :=
  ⟨(buildFhirPayload_structural "payment" [("note", .str "n")]).1 (by decide) (by decide),
   (buildFhirPayload_structural "payment" [("note", .str "n")]).2.1.1,
   (buildFhirPayload_structural "payment" [("note", .str "n")]).2.1.2.2.1⟩

/-- Witness for C8 with an empty remaining conversation. -/
theorem chat_system_prompt_composition_witness :
    (Ollama.applyGuardrails [⟨"system", "be terse"⟩] c8metadata).head? =
      some ⟨"system",
        Ollama.basePrompt ++ "\n\n" ++ Ollama.structuredPrompt ++ "\n\n" ++
        "Respond in the user\x27s language." ++ "\n\n" ++
        "Primary intent: eligibility_check." ++ "\n\n" ++ "be terse"⟩ :=
  chat_system_prompt_composition []
